import Mathlib

/-!
# static/js/custom.js : page interaction handlers

A shallow embedding of the event handlers of `static/js/custom.js` and of the
script's top-level initialisation.

* The page is a record of the elements the script looks up, each reduced to
  the state the script reads or writes (class tokens, label text, visibility,
  document offset).  The elements are distinct nodes of the page.
* A handler is a function from the page before the event to an `Outcome`: the
  page after the handler, whether `event.preventDefault()` was called, and the
  error the handler raised, if any.  A JavaScript error does not roll back the
  writes made before it, so the page of a failed outcome is the page at the
  moment of the throw.
* jQuery and DOM library calls are modelled by their documented behaviour:
  `addClass` / `removeClass` / `classList.add|remove|toggle` on class tokens;
  `$(selector)` looks a selector of the form `#id` up by id and hands any
  other selector to the selector engine, whose answer is part of the page;
  `.offset()` is `undefined` on an empty selection; `.is(":visible")` holds
  when some selected element is visible, which takes the element's own
  display and a rendered container; `slideUp` / `slideDown` are taken at the
  end of their transition and write the element's own display only;
  `.animate(props, 0)` is recorded as the request it makes.
-/

namespace CustomJs

/-! ## Values and elements -/

/-- Errors the script can raise at run time. -/
inductive JsError where
  | typeError (what : String)
  | selectorError (what : String)
deriving DecidableEq

/-- Class tokens of an element (`DOMTokenList`, and the `class` attribute as
jQuery reads it), in order. -/
abbrev ClassList := List String

/-- Membership test `classList.contains(tok)`. -/
def ClassList.has (cl : ClassList) (tok : String) : Bool :=
  cl.contains tok

/-- Method `classList.add(tok)`, and jQuery `addClass(tok)` on one element:
append the token unless it is there already. -/
def ClassList.add (cl : ClassList) (tok : String) : ClassList :=
  if cl.has tok then cl else cl ++ [tok]

/-- Method `classList.remove(tok)`, and jQuery `removeClass(tok)` on one
element: drop every occurrence of the token. -/
def ClassList.remove (cl : ClassList) (tok : String) : ClassList :=
  cl.filter (fun c => c != tok)

/-- Method `classList.toggle(tok)`: remove the token when present, add it
otherwise. -/
def ClassList.toggle (cl : ClassList) (tok : String) : ClassList :=
  if cl.has tok then cl.remove tok else cl.add tok

/-- An element of the page, reduced to its class tokens. -/
structure Element where
  classList : ClassList
deriving DecidableEq

/-- Result of jQuery `addClass(tok)` on a selection: every selected element gets
the token. -/
def addClass (sel : List Element) (tok : String) : List Element :=
  sel.map (fun e => { e with classList := e.classList.add tok })

/-- Result of jQuery `removeClass(tok)` on a selection. -/
def removeClass (sel : List Element) (tok : String) : List Element :=
  sel.map (fun e => { e with classList := e.classList.remove tok })

/-- A `.more-text` element, reduced to what `:visible` reads.  The slide
transitions read and write `displayed` only; `containerShown` belongs to the
rest of the page and no statement of the script writes it. -/
structure MoreText where
  /-- The element's own `display` is not `none`. -/
  displayed : Bool
  /-- The element has a layout box whenever its own `display` is not `none`:
  no ancestor is hidden and the element is attached. -/
  containerShown : Bool
deriving DecidableEq

/-- What `:visible` tests on one element: it has a layout box. -/
def MoreText.visible (m : MoreText) : Bool :=
  m.displayed && m.containerShown

/-- A `.read-more-link` trigger together with what its handler reaches from
`this`: its own text, and the selection
`$(this).prev(".short-text").find(".more-text")` (empty when the trigger has no
such sibling or the sibling holds no such element). -/
structure ReadMoreLink where
  text : String
  moreText : List MoreText
deriving DecidableEq

/-- An element that `$(selector)` can select by its id, with the `top` of its
`.offset()`. -/
structure Anchor where
  id : String
  top : Int
deriving DecidableEq

/-- A request made by `$('html, body').animate({scrollTop: v}, d)`. -/
structure Animation where
  scrollTop : Int
  duration : Nat
deriving DecidableEq

/-- The `.mobile-dropdown-toggle` element with its `nextElementSibling`
(`none` for `null`). -/
structure ServiceToggle where
  nextElementSibling : Option Element
deriving DecidableEq

/-- The page as the script sees it.  A lookup that returns `null` is `none`;
a selection is the list of its elements. -/
structure Page where
  /-- Value of `$(window).scrollTop()`. -/
  scrollTop : Int
  /-- Selection `$('.scroll-header')`. -/
  scrollHeader : List Element
  /-- Selection `$(".read-more-link")`. -/
  readMoreLinks : List ReadMoreLink
  /-- Hashes of the selection `$("a.nav-link")`. -/
  navLinks : List String
  /-- Elements with an id, in document order, for `document.getElementById`. -/
  anchors : List Anchor
  /-- The selector engine `jQuery.find` on this page: for a selector, the first
  element of the selection (`none` when it is empty), or the error the engine
  throws on a selector it does not recognise. -/
  find : String → Except JsError (Option Anchor)
  /-- Animation requests made so far on `$('html, body')`, latest first. -/
  animations : List Animation
  /-- Lookup `document.getElementById('sideNav')`. -/
  sideNav : Option Element
  /-- Lookup `document.getElementById('overlay')`. -/
  overlay : Option Element
  /-- Lookup `document.getElementById('mobileMenuToggle')`. -/
  toggleBtn : Option Element
  /-- Lookup `document.getElementById('closeSideNav')`. -/
  closeBtn : Option Element
  /-- Lookup `document.querySelector('.mobile-dropdown-toggle')`. -/
  serviceToggle : Option ServiceToggle
  /-- The `href` attributes (`none` when the attribute is missing) of
  `document.querySelectorAll('.side-nav .close-drawer-on-click')`. -/
  closeLinks : List (Option String)

/-- What one run of a handler leaves behind. -/
structure Outcome where
  page : Page
  defaultPrevented : Bool
  error : Option JsError

/-! ## jQuery handlers (lines 2-37) -/

/-- The `$(window).scroll` handler, lines 4-10. -/
def windowScroll (p : Page) : Outcome :=
  if p.scrollTop > 0 then
    { page := { p with scrollHeader := addClass p.scrollHeader "fixed-header" },
      defaultPrevented := false, error := none }
  else
    { page := { p with scrollHeader := removeClass p.scrollHeader "fixed-header" },
      defaultPrevented := false, error := none }

/-- Test `moreText.is(":visible")`: some selected element is visible. -/
def isVisible (sel : List MoreText) : Bool :=
  sel.any (fun m => m.visible)

/-- State of the selection once `slideUp()` has completed: every element has
its own `display` set to `none` (an element that had it already is skipped). -/
def slideUp (sel : List MoreText) : List MoreText :=
  sel.map (fun m => { m with displayed := false })

/-- State of the selection once `slideDown()` has completed: every element has
its own `display` restored (an element whose own `display` was not `none` is
skipped, also when a hidden container keeps it out of sight). -/
def slideDown (sel : List MoreText) : List MoreText :=
  sel.map (fun m => { m with displayed := true })

/-- The `.read-more-link` click handler, lines 13-23, on the trigger `this`. -/
def readMoreLinkClick (link : ReadMoreLink) : ReadMoreLink :=
  if isVisible link.moreText then
    { text := "Read More", moreText := slideUp link.moreText }
  else
    { text := "Read Less", moreText := slideDown link.moreText }

/-- A character of the class `[\w-]` of jQuery's quick-match expression. -/
def isWordChar (c : Char) : Bool :=
  c.isAlphanum || c == '_' || c == '-'

/-- The id of a selector that jQuery's quick-match expression `#([\w-]+)`
accepts as a whole: `#` followed by one or more word characters or hyphens. -/
def quickId (selector : String) : Option String :=
  match selector.data with
  | '#' :: c :: cs => if (c :: cs).all isWordChar then some (String.mk (c :: cs)) else none
  | _ => none

/-- The call `$(selector)`, reduced to the first element of the selection
(`none` when it is empty).  A selector of the form `#id` is answered by
`document.getElementById(id)`, the first element with that id; any other
selector goes to the selector engine, which may throw. -/
def jq (p : Page) (selector : String) : Except JsError (Option Anchor) :=
  match quickId selector with
  | some id => Except.ok (p.anchors.find? (fun a => a.id == id))
  | none => p.find selector

/-- The `a.nav-link` click handler, lines 26-35, on a link whose `hash`
property is `hash`.  An error of `$(this.hash)` leaves the handler at line 29;
on an empty selection `target.offset()` is `undefined` and reading `.top` of
it throws at line 32; both happen after `preventDefault()` has run. -/
def navLinkClick (hash : String) (p : Page) : Outcome :=
  if hash != "" then
    match jq p hash with
    | Except.error e =>
      { page := p, defaultPrevented := true, error := some e }
    | Except.ok none =>
      { page := p, defaultPrevented := true,
        error := some (JsError.typeError "target.offset() is undefined") }
    | Except.ok (some target) =>
      { page := { p with animations :=
                    { scrollTop := target.top - 70, duration := 0 } :: p.animations },
        defaultPrevented := true, error := none }
  else
    { page := p, defaultPrevented := false, error := none }

/-! ## Drawer handlers (lines 87-105) -/

/-- The `toggleBtn` click handler, lines 92-95. -/
def toggleBtnClick (p : Page) : Outcome :=
  match p.sideNav with
  | none =>
    { page := p, defaultPrevented := false,
      error := some (JsError.typeError "sideNav is null") }
  | some nav =>
    let p1 := { p with sideNav := some { nav with classList := nav.classList.add "active" } }
    match p1.overlay with
    | none =>
      { page := p1, defaultPrevented := false,
        error := some (JsError.typeError "overlay is null") }
    | some ov =>
      { page := { p1 with overlay := some { ov with classList := ov.classList.add "show" } },
        defaultPrevented := false, error := none }

/-- The two statements shared by the closing handlers:
`sideNav.classList.remove('active'); overlay.classList.remove('show');`. -/
def closeDrawer (p : Page) : Outcome :=
  match p.sideNav with
  | none =>
    { page := p, defaultPrevented := false,
      error := some (JsError.typeError "sideNav is null") }
  | some nav =>
    let p1 := { p with sideNav := some { nav with classList := nav.classList.remove "active" } }
    match p1.overlay with
    | none =>
      { page := p1, defaultPrevented := false,
        error := some (JsError.typeError "overlay is null") }
    | some ov =>
      { page := { p1 with overlay := some { ov with classList := ov.classList.remove "show" } },
        defaultPrevented := false, error := none }

/-- The `closeBtn` click handler, lines 97-100. -/
def closeBtnClick (p : Page) : Outcome :=
  closeDrawer p

/-- The `overlay` click handler, lines 102-105. -/
def overlayClick (p : Page) : Outcome :=
  closeDrawer p

/-! ## Submenu toggle (lines 108-118) -/

/-- The `serviceToggle` click handler, lines 113-116.  The listener exists only
when both the toggle and its next sibling do; without it a click runs no
script. -/
def serviceToggleClick (p : Page) : Outcome :=
  match p.serviceToggle with
  | none => { page := p, defaultPrevented := false, error := none }
  | some t =>
    match t.nextElementSibling with
    | none => { page := p, defaultPrevented := false, error := none }
    | some submenu =>
      let toggled : Element := { submenu with classList := submenu.classList.toggle "show" }
      { page := { p with serviceToggle := some { t with nextElementSibling := some toggled } },
        defaultPrevented := true, error := none }

/-- The submenu the toggle handler acts on. -/
def submenu (p : Page) : Option Element :=
  match p.serviceToggle with
  | none => none
  | some t => t.nextElementSibling

/-! ## Close-on-click links (lines 120-136) -/

/-- The array `closeUrls`, lines 124-129. -/
def closeUrls : List String :=
  ["v2/#whyoutspak", "v2/#whothisfor", "v2/#careerpost", "contact"]

/-- Test `arr.includes(v)` for an array of strings and a value that is a string
or `null`: some entry is the same value. -/
def includes (arr : List String) (v : Option String) : Bool :=
  arr.any (fun u => some u == v)

/-- The click handler of a `.side-nav .close-drawer-on-click` link, lines
121-135; `href` is `this.getAttribute('href')`, `none` for `null`. -/
def closeLinkClick (href : Option String) (p : Page) : Outcome :=
  if includes closeUrls href then closeDrawer p
  else { page := p, defaultPrevented := false, error := none }

/-- A click on one of the elements that drive the drawer. -/
inductive DrawerEvent where
  | toggleBtn
  | closeBtn
  | overlay
  | closeLink (href : Option String)
deriving DecidableEq

/-- The handler a drawer event runs. -/
def DrawerEvent.handler : DrawerEvent → Page → Outcome
  | DrawerEvent.toggleBtn => toggleBtnClick
  | DrawerEvent.closeBtn => closeBtnClick
  | DrawerEvent.overlay => overlayClick
  | DrawerEvent.closeLink href => closeLinkClick href

/-- The page after a sequence of drawer events, each handler running to
completion before the next event is dispatched. -/
def runEvents (evs : List DrawerEvent) (p : Page) : Page :=
  evs.foldl (fun q ev => (ev.handler q).page) p

/-- Both drawer and overlay exist, and the drawer has `active` exactly when the
overlay has `show`. -/
def setTogether (p : Page) : Bool :=
  match p.sideNav, p.overlay with
  | some nav, some ov => nav.classList.has "active" == ov.classList.has "show"
  | _, _ => false

/-! ## Top-level initialisation -/

/-- The listeners the script has registered so far.  The first two record
callbacks that run later (document ready, `DOMContentLoaded`); the counts are
the numbers of elements a listener was bound to. -/
structure Listeners where
  ready : Bool
  domContentLoaded : Bool
  toggleBtn : Bool
  closeBtn : Bool
  overlay : Bool
  closeLinks : Nat
  windowScroll : Bool
  readMoreLinks : Nat
  navLinks : Nat
  serviceToggle : Bool
deriving DecidableEq

/-- Nothing registered. -/
def noListeners : Listeners :=
  { ready := false, domContentLoaded := false, toggleBtn := false, closeBtn := false,
    overlay := false, closeLinks := 0, windowScroll := false, readMoreLinks := 0,
    navLinks := 0, serviceToggle := false }

/-- The statements of the script in order (lines 2, 87-92, 97, 102, 108, 120).
Calling `addEventListener` on `null` throws, and a throw ends the script: the
statements after it do not run. -/
def topLevel (p : Page) : Listeners × Option JsError :=
  let l1 := { noListeners with ready := true }
  match p.toggleBtn with
  | none => (l1, some (JsError.typeError "toggleBtn is null"))
  | some _ =>
    let l2 := { l1 with toggleBtn := true }
    match p.closeBtn with
    | none => (l2, some (JsError.typeError "closeBtn is null"))
    | some _ =>
      let l3 := { l2 with closeBtn := true }
      match p.overlay with
      | none => (l3, some (JsError.typeError "overlay is null"))
      | some _ =>
        let l4 := { l3 with overlay := true }
        let l5 := { l4 with domContentLoaded := true }
        ({ l5 with closeLinks := p.closeLinks.length }, none)

/-- The document-ready callback, lines 2-37: binds the scroll handler to the
window and the click handlers to every element of the two selections. -/
def documentReady (p : Page) (l : Listeners) : Listeners :=
  if l.ready then
    { l with windowScroll := true, readMoreLinks := p.readMoreLinks.length,
             navLinks := p.navLinks.length }
  else l

/-- The `DOMContentLoaded` callback, lines 108-118. -/
def domContentLoaded (p : Page) (l : Listeners) : Listeners :=
  if l.domContentLoaded then
    match p.serviceToggle with
    | none => l
    | some t =>
      match t.nextElementSibling with
      | none => l
      | some _ => { l with serviceToggle := true }
  else l

/-- The script run on a page, followed by the callbacks it managed to
register. -/
def loadPage (p : Page) : Listeners × Option JsError :=
  let r := topLevel p
  (domContentLoaded p (documentReady p r.1), r.2)

/-- The page after `n` clicks on the submenu toggle. -/
def serviceToggleClicks : Nat → Page → Page
  | 0, p => p
  | n + 1, p => serviceToggleClicks n (serviceToggleClick p).page

/-- The class tokens after `n` calls of `classList.toggle(tok)`. -/
def ClassList.toggleTimes (tok : String) : Nat → ClassList → ClassList
  | 0, cl => cl
  | n + 1, cl => ClassList.toggleTimes tok n (cl.toggle tok)

/-! ## Sample pages -/

/-- A page that has every element the script looks up, drawer closed.  No
selector beyond the `#id` form selects anything on it. -/
def fullPage : Page :=
  { scrollTop := 0,
    scrollHeader := [{ classList := ["scroll-header"] }],
    readMoreLinks :=
      [{ text := "Read More", moreText := [{ displayed := false, containerShown := true }] }],
    navLinks := ["#section1", ""],
    anchors := [{ id := "section1", top := 500 }],
    find := fun _ => Except.ok none,
    animations := [],
    sideNav := some { classList := ["side-nav"] },
    overlay := some { classList := ["overlay"] },
    toggleBtn := some { classList := ["menu-toggle"] },
    closeBtn := some { classList := ["close-btn"] },
    serviceToggle := some { nextElementSibling := some { classList := ["mobile-submenu"] } },
    closeLinks := [some "contact", some "about", none] }

/-- The same page without the `#mobileMenuToggle` element. -/
def pageWithoutToggleBtn : Page :=
  { fullPage with toggleBtn := none }

/-- A read-more trigger whose markup label is not one of the two texts the
handler writes; its more-text element starts hidden. -/
def lowerCaseLink : ReadMoreLink :=
  { text := "Read more", moreText := [{ displayed := false, containerShown := true }] }

/-- A read-more trigger whose more-text element sits in a container that is
itself hidden (`display: none` on the `.short-text` sibling). -/
def hiddenContainerLink : ReadMoreLink :=
  { text := "Read More", moreText := [{ displayed := false, containerShown := false }] }

/-- A page whose only anchor has the id `a.b`: the hash `#a.b` is not of the
`#id` form, and the selector engine reads it as id `a` with class `b`, which
selects nothing here. -/
def dottedIdPage : Page :=
  { fullPage with anchors := [{ id := "a.b", top := 300 }] }

/-! ## Class-token lemmas -/

theorem ClassList.has_iff (cl : ClassList) (tok : String) :
    cl.has tok = true ↔ tok ∈ cl := by
  simp [ClassList.has]

theorem ClassList.mem_add_self (cl : ClassList) (tok : String) :
    tok ∈ cl.add tok := by
  unfold ClassList.add
  split
  · rename_i h
    exact (ClassList.has_iff cl tok).1 h
  · simp

theorem ClassList.not_mem_remove_self (cl : ClassList) (tok : String) :
    tok ∉ cl.remove tok := by
  simp [ClassList.remove]

theorem ClassList.remove_of_not_mem (cl : ClassList) (tok : String) (h : tok ∉ cl) :
    cl.remove tok = cl := by
  unfold ClassList.remove
  rw [List.filter_eq_self]
  intro c hc
  have : c ≠ tok := fun e => h (e ▸ hc)
  simpa using this

theorem ClassList.remove_add_of_not_mem (cl : ClassList) (tok : String) (h : tok ∉ cl) :
    (cl.add tok).remove tok = cl := by
  have hn : cl.has tok = false := by
    cases hh : cl.has tok
    · rfl
    · exact absurd ((ClassList.has_iff cl tok).1 hh) h
  simp only [ClassList.add, hn]
  simp only [ClassList.remove, List.filter_append]
  have := ClassList.remove_of_not_mem cl tok h
  unfold ClassList.remove at this
  simp [this]

theorem ClassList.mem_toggle_self (cl : ClassList) (tok : String) :
    tok ∈ cl.toggle tok ↔ tok ∉ cl := by
  unfold ClassList.toggle
  split
  · rename_i h
    have hm := (ClassList.has_iff cl tok).1 h
    simp [ClassList.not_mem_remove_self, hm]
  · rename_i h
    have hm : tok ∉ cl := fun hc => h ((ClassList.has_iff cl tok).2 hc)
    simp [ClassList.mem_add_self, hm]

/-! ## Drawer lemmas -/

theorem closeDrawer_of_present (p : Page) (nav ov : Element)
    (hnav : p.sideNav = some nav) (hov : p.overlay = some ov) :
    closeDrawer p =
      { page := { p with
                    sideNav := some { classList := nav.classList.remove "active" },
                    overlay := some { classList := ov.classList.remove "show" } },
        defaultPrevented := false, error := none } := by
  simp [closeDrawer, hnav, hov]

theorem toggleBtnClick_of_present (p : Page) (nav ov : Element)
    (hnav : p.sideNav = some nav) (hov : p.overlay = some ov) :
    toggleBtnClick p =
      { page := { p with
                    sideNav := some { classList := nav.classList.add "active" },
                    overlay := some { classList := ov.classList.add "show" } },
        defaultPrevented := false, error := none } := by
  simp [toggleBtnClick, hnav, hov]

theorem includes_closeUrls (href : Option String) :
    includes closeUrls href = true ↔
      (href = some "v2/#whyoutspak" ∨ href = some "v2/#whothisfor" ∨
        href = some "v2/#careerpost" ∨ href = some "contact") := by
  cases href with
  | none => simp [includes, closeUrls]
  | some s =>
    simp only [includes, closeUrls, List.any_cons, List.any_nil, Bool.or_false,
      Bool.or_eq_true, beq_iff_eq, Option.some.injEq]
    constructor <;> intro h <;> rcases h with h | h | h | h <;> simp [h]

theorem setTogether_closeDrawer (p : Page) (h : setTogether p = true) :
    setTogether (closeDrawer p).page = true := by
  unfold setTogether at h
  split at h
  · rename_i nav ov hnav hov
    rw [closeDrawer_of_present p nav ov hnav hov]
    have h1 : ClassList.has (nav.classList.remove "active") "active" = false := by
      simpa [ClassList.has] using ClassList.not_mem_remove_self nav.classList "active"
    have h2 : ClassList.has (ov.classList.remove "show") "show" = false := by
      simpa [ClassList.has] using ClassList.not_mem_remove_self ov.classList "show"
    simp [setTogether, h1, h2]
  · exact absurd h (by simp)

theorem setTogether_toggleBtnClick (p : Page) (h : setTogether p = true) :
    setTogether (toggleBtnClick p).page = true := by
  unfold setTogether at h
  split at h
  · rename_i nav ov hnav hov
    rw [toggleBtnClick_of_present p nav ov hnav hov]
    have h1 : ClassList.has (nav.classList.add "active") "active" = true :=
      (ClassList.has_iff _ _).2 (ClassList.mem_add_self _ _)
    have h2 : ClassList.has (ov.classList.add "show") "show" = true :=
      (ClassList.has_iff _ _).2 (ClassList.mem_add_self _ _)
    simp [setTogether, h1, h2]
  · exact absurd h (by simp)

theorem setTogether_handler (ev : DrawerEvent) (p : Page) (h : setTogether p = true) :
    setTogether (ev.handler p).page = true := by
  cases ev with
  | toggleBtn => exact setTogether_toggleBtnClick p h
  | closeBtn => exact setTogether_closeDrawer p h
  | overlay => exact setTogether_closeDrawer p h
  | closeLink href =>
    simp only [DrawerEvent.handler, closeLinkClick]
    split
    · exact setTogether_closeDrawer p h
    · exact h

/-! ## Submenu lemmas -/

theorem ClassList.mem_toggleTimes (tok : String) (n : Nat) (cl : ClassList) :
    tok ∈ ClassList.toggleTimes tok n cl ↔ (tok ∈ cl ↔ n % 2 = 0) := by
  induction n generalizing cl with
  | zero => simp [ClassList.toggleTimes]
  | succ k ih =>
    simp only [ClassList.toggleTimes]
    rw [ih, ClassList.mem_toggle_self]
    by_cases hm : tok ∈ cl <;> simp [hm] <;> omega

theorem serviceToggleClicks_eq (n : Nat) (p : Page) (t : ServiceToggle) (sub : Element)
    (ht : p.serviceToggle = some t) (hs : t.nextElementSibling = some sub) :
    serviceToggleClicks n p =
      { p with
        serviceToggle := some ⟨some ⟨ClassList.toggleTimes "show" n sub.classList⟩⟩ } := by
  induction n generalizing p t sub with
  | zero =>
    cases p
    cases t
    cases sub
    simp only at ht hs
    subst ht hs
    rfl
  | succ k ih =>
    simp only [serviceToggleClicks]
    rw [ih (serviceToggleClick p).page
      { nextElementSibling := some { classList := sub.classList.toggle "show" } }
      { classList := sub.classList.toggle "show" }
      (by simp [serviceToggleClick, ht, hs]) rfl]
    simp [serviceToggleClick, ht, hs, ClassList.toggleTimes]

theorem navLinkClick_of_missing (hash : String) (p : Page)
    (hhash : hash ≠ "") (hmiss : jq p hash = Except.ok none) :
    navLinkClick hash p =
      { page := p, defaultPrevented := true,
        error := some (JsError.typeError "target.offset() is undefined") } := by
  simp [navLinkClick, hhash, hmiss]

theorem navLinkClick_dotted_id_throws :
    jq dottedIdPage "#a.b" = Except.ok none ∧
    (navLinkClick "#a.b" dottedIdPage).error =
      some (JsError.typeError "target.offset() is undefined") ∧
    (navLinkClick "#a.b" dottedIdPage).page.animations = [] :=
  ⟨rfl, rfl, rfl⟩

theorem topLevel_error_iff (p : Page) :
    (topLevel p).2 = none ↔
      (p.toggleBtn ≠ none ∧ p.closeBtn ≠ none ∧ p.overlay ≠ none) := by
  unfold topLevel
  cases p.toggleBtn <;> cases p.closeBtn <;> cases p.overlay <;> simp

/-! ## Read-more lemmas -/

theorem isVisible_slideUp (sel : List MoreText) : isVisible (slideUp sel) = false := by
  simp [isVisible, slideUp, MoreText.visible]

theorem isVisible_slideDown (sel : List MoreText) :
    isVisible (slideDown sel) = sel.any MoreText.containerShown := by
  simp only [isVisible, slideDown, List.any_map]
  congr 1

theorem slideUp_slideDown (sel : List MoreText) : slideUp (slideDown sel) = slideUp sel := by
  simp [slideUp, slideDown]

theorem slideDown_slideUp (sel : List MoreText) : slideDown (slideUp sel) = slideDown sel := by
  simp [slideUp, slideDown]

theorem slideDown_slideDown (sel : List MoreText) :
    slideDown (slideDown sel) = slideDown sel := by
  simp [slideDown]

theorem any_containerShown_of_isVisible (sel : List MoreText) (h : isVisible sel = true) :
    sel.any MoreText.containerShown = true := by
  simp only [isVisible, List.any_eq_true, MoreText.visible, Bool.and_eq_true] at h ⊢
  obtain ⟨m, hm, _, hc⟩ := h
  exact ⟨m, hm, hc⟩

/-- Two runs of the read-more handler in closed form. -/
theorem two_clicks_closed_form (link : ReadMoreLink) :
    readMoreLinkClick (readMoreLinkClick link) =
      if (!isVisible link.moreText && link.moreText.any MoreText.containerShown) = true then
        { text := "Read More", moreText := slideUp link.moreText }
      else
        { text := "Read Less", moreText := slideDown link.moreText } := by
  cases hv : isVisible link.moreText
  · cases hc : link.moreText.any MoreText.containerShown
    · simp [readMoreLinkClick, hv, hc, isVisible_slideDown, slideDown_slideDown]
    · simp [readMoreLinkClick, hv, hc, isVisible_slideDown, slideUp_slideDown]
  · have hc := any_containerShown_of_isVisible link.moreText hv
    simp [readMoreLinkClick, hv, hc, isVisible_slideUp, slideDown_slideUp]

theorem map_visible_slideUp (sel : List MoreText) :
    (slideUp sel).map MoreText.visible = sel.map (fun _ => false) := by
  simp only [slideUp, List.map_map]
  apply List.map_congr_left
  intro m _
  simp [MoreText.visible]

theorem map_visible_slideDown (sel : List MoreText) :
    (slideDown sel).map MoreText.visible = sel.map MoreText.containerShown := by
  simp only [slideDown, List.map_map]
  apply List.map_congr_left
  intro m _
  simp [MoreText.visible]

theorem map_visible_of_not_isVisible (sel : List MoreText) (h : isVisible sel = false) :
    sel.map MoreText.visible = sel.map (fun _ => false) := by
  apply List.map_congr_left
  intro m hm
  simp only [isVisible, List.any_eq_false] at h
  simpa using h m hm

/-! ## Claims -/

/-- C1: for a close-on-click link with any `href` (also a missing one) and any
class state of the drawer and the overlay, the click handler raises no error;
when `href` equals one of `v2/#whyoutspak`, `v2/#whothisfor`, `v2/#careerpost`,
`contact`, afterwards the drawer has no `active` and the overlay no `show`;
otherwise the page is the page before the click. -/
theorem closeLinkClick_closes_iff_allow_listed (href : Option String) (p : Page)
    (nav ov : Element) (hnav : p.sideNav = some nav) (hov : p.overlay = some ov) :
    (closeLinkClick href p).error = none ∧
    ((href = some "v2/#whyoutspak" ∨ href = some "v2/#whothisfor" ∨
        href = some "v2/#careerpost" ∨ href = some "contact") →
      ∃ nav1 ov1, (closeLinkClick href p).page.sideNav = some nav1 ∧
        (closeLinkClick href p).page.overlay = some ov1 ∧
        "active" ∉ nav1.classList ∧ "show" ∉ ov1.classList) ∧
    (¬ (href = some "v2/#whyoutspak" ∨ href = some "v2/#whothisfor" ∨
        href = some "v2/#careerpost" ∨ href = some "contact") →
      (closeLinkClick href p).page = p) := by
  by_cases hin : includes closeUrls href = true
  · have hl := (includes_closeUrls href).1 hin
    simp only [closeLinkClick, hin, if_true, closeDrawer_of_present p nav ov hnav hov]
    refine ⟨trivial, fun _ => ⟨_, _, rfl, rfl, ?_, ?_⟩, fun hn => absurd hl hn⟩
    · exact ClassList.not_mem_remove_self _ _
    · exact ClassList.not_mem_remove_self _ _
  · have hl : ¬ _ := fun h => hin ((includes_closeUrls href).2 h)
    simp only [closeLinkClick, hin]
    exact ⟨rfl, fun h => absurd h hl, fun _ => rfl⟩

/-- C3: from the closed state (drawer without `active`, overlay without `show`)
the open-trigger handler followed by the overlay handler gives back the page
it started from, and so does the open-trigger handler followed by the
close-trigger handler; none of the handlers raises an error. -/
theorem open_then_close_restores (p : Page) (nav ov : Element)
    (hnav : p.sideNav = some nav) (hov : p.overlay = some ov)
    (hclosed : "active" ∉ nav.classList) (hhidden : "show" ∉ ov.classList) :
    (toggleBtnClick p).error = none ∧
    (overlayClick (toggleBtnClick p).page).page = p ∧
    (overlayClick (toggleBtnClick p).page).error = none ∧
    (closeBtnClick (toggleBtnClick p).page).page = p ∧
    (closeBtnClick (toggleBtnClick p).page).error = none := by
  have key : closeDrawer (toggleBtnClick p).page =
      { page := p, defaultPrevented := false, error := none } := by
    rw [toggleBtnClick_of_present p nav ov hnav hov]
    rw [closeDrawer_of_present _ { classList := nav.classList.add "active" }
      { classList := ov.classList.add "show" } rfl rfl]
    simp only [ClassList.remove_add_of_not_mem _ _ hclosed,
      ClassList.remove_add_of_not_mem _ _ hhidden]
    cases p
    simp only at hnav hov
    subst hnav hov
    rfl
  refine ⟨?_, ?_, ?_, ?_, ?_⟩
  · rw [toggleBtnClick_of_present p nav ov hnav hov]
  · simp only [overlayClick, key]
  · simp only [overlayClick, key]
  · simp only [closeBtnClick, key]
  · simp only [closeBtnClick, key]

/-- C4: when drawer and overlay exist and the drawer has `active` exactly when
the overlay has `show`, the same holds after any sequence of open-trigger,
close-trigger, overlay and close-on-click link clicks, whatever the links'
`href`. -/
theorem setTogether_runEvents (evs : List DrawerEvent) (p : Page)
    (h : setTogether p = true) : setTogether (runEvents evs p) = true := by
  induction evs generalizing p with
  | nil => exact h
  | cons ev rest ih =>
    simp only [runEvents, List.foldl_cons]
    exact ih _ (setTogether_handler ev p h)

/-- C5: for every scroll offset and every class state of the header, the scroll
handler raises no error and leaves every `.scroll-header` element with
`fixed-header` exactly when the offset is positive; the selection keeps its
elements, and with no header element the page is unchanged. -/
theorem windowScroll_fixed_header_iff (p : Page) :
    (windowScroll p).error = none ∧
    (∀ h ∈ (windowScroll p).page.scrollHeader,
      "fixed-header" ∈ h.classList ↔ p.scrollTop > 0) ∧
    (windowScroll p).page.scrollHeader.length = p.scrollHeader.length ∧
    (p.scrollHeader = [] → (windowScroll p).page = p) := by
  unfold windowScroll
  split
  · rename_i hpos
    refine ⟨rfl, ?_, by simp [addClass], ?_⟩
    · intro h hh
      simp only [addClass, List.mem_map] at hh
      obtain ⟨e, _, rfl⟩ := hh
      simp [ClassList.mem_add_self, hpos]
    · intro hnil
      cases p
      simp only at hnil
      subst hnil
      rfl
  · rename_i hpos
    refine ⟨rfl, ?_, by simp [removeClass], ?_⟩
    · intro h hh
      simp only [removeClass, List.mem_map] at hh
      obtain ⟨e, _, rfl⟩ := hh
      simp [ClassList.not_mem_remove_self, hpos]
    · intro hnil
      cases p
      simp only at hnil
      subst hnil
      rfl

/-- C6: for every nav link hash and every page: when the hash is not empty and
`$(hash)` selects an element at vertical offset `target.top`, the click
handler prevents the default navigation, raises no error and requests the
scroll position `target.top - 70` with duration 0, leaving the rest of the
page as it was; and on every page a nav link with the empty hash makes the
handler neither prevent the default nor change the page. -/
theorem navLinkClick_scrolls_to_target (hash : String) (p : Page) :
    (hash ≠ "" → ∀ target : Anchor, jq p hash = Except.ok (some target) →
      navLinkClick hash p =
        { page := { p with animations :=
                      { scrollTop := target.top - 70, duration := 0 } :: p.animations },
          defaultPrevented := true, error := none }) ∧
    navLinkClick "" p = { page := p, defaultPrevented := false, error := none } := by
  constructor
  · intro hhash target htarget
    simp [navLinkClick, hhash, htarget]
  · simp [navLinkClick]

/-- C7, as stated, fails: a more-text element inside a hidden container is
hidden before the click and still hidden after it, whether its own display
was `none` or not; the label is set to `Read Less` all the same. -/
theorem readMoreLinkClick_hidden_container_stays_hidden :
    isVisible hiddenContainerLink.moreText = false ∧
    isVisible (readMoreLinkClick hiddenContainerLink).moreText = false ∧
    (readMoreLinkClick hiddenContainerLink).text = "Read Less" ∧
    isVisible (readMoreLinkClick
      { text := "Read More", moreText := [{ displayed := true, containerShown := false }] }).moreText
      = false := by
  decide

/-- C7, amended: one run of the read-more click handler, when some selected
more-text element is visible, hides every one of them and sets the label to
`Read More`; when none is visible, sets the own display of every one of them
to shown and sets the label to `Read Less`, after which an element is visible
exactly when its container is shown.  The handler leaves the containers as
they were. -/
theorem readMoreLinkClick_toggles (link : ReadMoreLink) :
    (isVisible link.moreText = true →
      (readMoreLinkClick link).text = "Read More" ∧
      ∀ m ∈ (readMoreLinkClick link).moreText, m.visible = false) ∧
    (isVisible link.moreText = false →
      (readMoreLinkClick link).text = "Read Less" ∧
      (∀ m ∈ (readMoreLinkClick link).moreText,
        m.displayed = true ∧ m.visible = m.containerShown) ∧
      (readMoreLinkClick link).moreText.map MoreText.visible =
        link.moreText.map MoreText.containerShown) ∧
    (readMoreLinkClick link).moreText.map MoreText.containerShown =
      link.moreText.map MoreText.containerShown := by
  refine ⟨?_, ?_, ?_⟩
  · intro hv
    unfold readMoreLinkClick
    rw [if_pos hv]
    refine ⟨rfl, fun m hm => ?_⟩
    simp only [slideUp, List.mem_map] at hm
    obtain ⟨_, _, rfl⟩ := hm
    rfl
  · intro hv
    unfold readMoreLinkClick
    rw [if_neg (by simp [hv])]
    refine ⟨rfl, fun m hm => ?_, map_visible_slideDown _⟩
    simp only [slideDown, List.mem_map] at hm
    obtain ⟨_, _, rfl⟩ := hm
    simp [MoreText.visible]
  · unfold readMoreLinkClick
    split <;> simp [slideUp, slideDown]

/-- C8, as stated, fails: a trigger whose label is `Read more` and whose
more-text element is hidden has the label `Read More` after two clicks, not
its original one. -/
theorem two_clicks_change_lower_case_label :
    (readMoreLinkClick (readMoreLinkClick lowerCaseLink)).text = "Read More" ∧
    (readMoreLinkClick (readMoreLinkClick lowerCaseLink)).text ≠ lowerCaseLink.text ∧
    (readMoreLinkClick (readMoreLinkClick lowerCaseLink)).moreText = lowerCaseLink.moreText := by
  decide

/-- C8, amended: for every read-more trigger, every initial label and every
initial state of its more-text selection, after two runs of the click handler
(a) the selection is visible, as `is(":visible")` reads it, exactly when it
was before; (b) every element has its original visibility exactly when no
element was visible at first or every element with a shown container was
displayed, which holds for every trigger with one more-text element; (c) the
label is `Read More` when at first no element was visible and some element
has a shown container, and `Read Less` otherwise; (d) the label is back at
its original value exactly when that value was the text of (c). -/
theorem readMoreLinkClick_twice (link : ReadMoreLink) :
    isVisible (readMoreLinkClick (readMoreLinkClick link)).moreText = isVisible link.moreText ∧
    ((readMoreLinkClick (readMoreLinkClick link)).moreText.map MoreText.visible =
        link.moreText.map MoreText.visible ↔
      (isVisible link.moreText = false ∨
        ∀ m ∈ link.moreText, m.containerShown = true → m.displayed = true)) ∧
    (∀ m : MoreText, link.moreText = [m] →
      (readMoreLinkClick (readMoreLinkClick link)).moreText.map MoreText.visible =
        [m.visible]) ∧
    (readMoreLinkClick (readMoreLinkClick link)).text =
      (if (!isVisible link.moreText && link.moreText.any MoreText.containerShown) = true
        then "Read More" else "Read Less") ∧
    ((readMoreLinkClick (readMoreLinkClick link)).text = link.text ↔
      link.text =
        (if (!isVisible link.moreText && link.moreText.any MoreText.containerShown) = true
          then "Read More" else "Read Less")) := by
  have key := two_clicks_closed_form link
  have hvis : (readMoreLinkClick (readMoreLinkClick link)).moreText.map MoreText.visible =
        link.moreText.map MoreText.visible ↔
      (isVisible link.moreText = false ∨
        ∀ m ∈ link.moreText, m.containerShown = true → m.displayed = true) := by
    rw [key]
    cases hv : isVisible link.moreText
    · cases hc : link.moreText.any MoreText.containerShown
      · simp only [Bool.not_false, Bool.and_false, Bool.false_eq_true, if_false, true_or,
          iff_true]
        rw [map_visible_slideDown, map_visible_of_not_isVisible _ hv]
        apply List.map_congr_left
        intro m hm
        simp only [List.any_eq_false] at hc
        simpa using hc m hm
      · simp only [Bool.not_false, Bool.and_true, if_true, true_or, iff_true]
        rw [map_visible_slideUp, map_visible_of_not_isVisible _ hv]
    · simp only [Bool.not_true, Bool.false_and, Bool.false_eq_true, if_false, false_or,
        Bool.true_eq_false]
      rw [map_visible_slideDown, List.map_inj_left]
      constructor
      · intro h m hm hc
        have := h m hm
        simp only [MoreText.visible, hc, Bool.and_true] at this
        exact this.symm
      · intro h m hm
        cases hc : m.containerShown
        · simp [MoreText.visible, hc]
        · simp [MoreText.visible, hc, h m hm hc]
  refine ⟨?_, hvis, ?_, ?_, ?_⟩
  · rw [key]
    cases hv : isVisible link.moreText
    · cases hc : link.moreText.any MoreText.containerShown
      · simp [isVisible_slideDown, hc]
      · simp [isVisible_slideUp]
    · have hc := any_containerShown_of_isVisible link.moreText hv
      simp [isVisible_slideDown, hc]
  · intro m hm
    rw [hvis.2]
    · simp [hm]
    · cases hv : isVisible link.moreText
      · exact Or.inl rfl
      · refine Or.inr fun x hx hc => ?_
        simp only [hm, List.mem_singleton] at hx
        subst hx
        simp only [hm, isVisible, List.any_cons, List.any_nil, Bool.or_false,
          MoreText.visible, Bool.and_eq_true] at hv
        exact hv.1
  · rw [key]
    split <;> rfl
  · rw [key]
    split <;> exact eq_comm

/-- C9: when the toggle and its next sibling exist and the submenu starts
without `show`, after `n` clicks the submenu has `show` exactly when `n` is
odd; a further click prevents the default navigation and raises no error; the
clicks change nothing of the page but the submenu, in particular not the
drawer and the overlay, and the submenu they produce is the same whatever the
drawer and the overlay are. -/
theorem serviceToggle_alternates (n : Nat) (p : Page) (t : ServiceToggle) (sub : Element)
    (ht : p.serviceToggle = some t) (hs : t.nextElementSibling = some sub)
    (hhidden : "show" ∉ sub.classList) :
    (∃ sub1, submenu (serviceToggleClicks n p) = some sub1 ∧
      ("show" ∈ sub1.classList ↔ n % 2 = 1)) ∧
    (serviceToggleClick (serviceToggleClicks n p)).defaultPrevented = true ∧
    (serviceToggleClick (serviceToggleClicks n p)).error = none ∧
    (serviceToggleClicks n p).sideNav = p.sideNav ∧
    (serviceToggleClicks n p).overlay = p.overlay ∧
    { serviceToggleClicks n p with serviceToggle := p.serviceToggle } = p ∧
    (∀ nav ov, submenu (serviceToggleClicks n { p with sideNav := nav, overlay := ov }) =
      submenu (serviceToggleClicks n p)) := by
  have hq : ∀ nav ov, ({ p with sideNav := nav, overlay := ov } : Page).serviceToggle = some t :=
    fun _ _ => ht
  refine ⟨?_, ?_, ?_, ?_, ?_, ?_, ?_⟩
  · refine ⟨{ classList := ClassList.toggleTimes "show" n sub.classList }, ?_, ?_⟩
    · rw [serviceToggleClicks_eq n p t sub ht hs]
      rfl
    · rw [ClassList.mem_toggleTimes]
      simp only [hhidden, false_iff]
      omega
  · rw [serviceToggleClicks_eq n p t sub ht hs]
    rfl
  · rw [serviceToggleClicks_eq n p t sub ht hs]
    rfl
  · rw [serviceToggleClicks_eq n p t sub ht hs]
  · rw [serviceToggleClicks_eq n p t sub ht hs]
  · rw [serviceToggleClicks_eq n p t sub ht hs]
  · intro nav ov
    rw [serviceToggleClicks_eq n p t sub ht hs, serviceToggleClicks_eq n _ t sub (hq nav ov) hs]
    rfl

/-- C10: on the full sample page a nav link with hash `#missing`, which selects
no element, makes the click handler raise a TypeError after it has prevented
the default navigation; no scroll is requested. -/
theorem navLinkClick_missing_target_throws :
    jq fullPage "#missing" = Except.ok none ∧
    navLinkClick "#missing" fullPage =
      { page := fullPage, defaultPrevented := true,
        error := some (JsError.typeError "target.offset() is undefined") } :=
  ⟨rfl, rfl⟩

/-- C2: on a page that lacks only the `#mobileMenuToggle` element the script
raises a TypeError at its first `addEventListener` call and registers none of
the close-trigger, overlay, submenu-toggle and close-on-click listeners, though
their elements exist; on the full page it raises nothing and registers them
all. -/
theorem loadPage_without_toggleBtn_throws :
    loadPage pageWithoutToggleBtn =
      ({ ready := true, domContentLoaded := false, toggleBtn := false, closeBtn := false,
         overlay := false, closeLinks := 0, windowScroll := true, readMoreLinks := 1,
         navLinks := 2, serviceToggle := false },
       some (JsError.typeError "toggleBtn is null")) ∧
    loadPage fullPage =
      ({ ready := true, domContentLoaded := true, toggleBtn := true, closeBtn := true,
         overlay := true, closeLinks := 3, windowScroll := true, readMoreLinks := 1,
         navLinks := 2, serviceToggle := true },
       none) := by
  decide

/-! ## Instances on the sample page -/

/-- With the drawer of the sample page open, the `contact` link closes it and the
`about` link leaves the page as it is. -/
theorem closeLinkClick_closes_iff_allow_listed_witness :
    (closeLinkClick (some "contact") (toggleBtnClick fullPage).page).error = none ∧
    (closeLinkClick (some "contact") (toggleBtnClick fullPage).page).page = fullPage ∧
    (closeLinkClick (some "about") (toggleBtnClick fullPage).page).page =
      (toggleBtnClick fullPage).page :=
  have h := closeLinkClick_closes_iff_allow_listed (some "about") (toggleBtnClick fullPage).page
    { classList := ["side-nav", "active"] } { classList := ["overlay", "show"] }
    (by decide) (by decide)
  ⟨rfl, rfl, h.2.2 (by decide)⟩

/-- On the sample page, opening and then closing by overlay or close trigger gives
the sample page back. -/
theorem open_then_close_restores_witness :
    "active" ∉ ["side-nav"] ∧ "show" ∉ ["overlay"] ∧
    (overlayClick (toggleBtnClick fullPage).page).page = fullPage ∧
    (closeBtnClick (toggleBtnClick fullPage).page).page = fullPage :=
  have h := open_then_close_restores fullPage { classList := ["side-nav"] }
    { classList := ["overlay"] } rfl rfl (by decide) (by decide)
  ⟨by decide, by decide, h.2.1, h.2.2.2.1⟩

/-- A run of seven drawer events on the sample page keeps drawer and overlay
together. -/
theorem setTogether_runEvents_witness :
    setTogether fullPage = true ∧
    setTogether (runEvents [DrawerEvent.toggleBtn, DrawerEvent.closeLink (some "about"),
      DrawerEvent.closeLink none, DrawerEvent.closeLink (some "contact"),
      DrawerEvent.toggleBtn, DrawerEvent.overlay, DrawerEvent.closeBtn] fullPage) = true :=
  ⟨by decide, setTogether_runEvents _ fullPage (by decide)⟩

/-- On the sample page the link to `#section1`, at offset 500, requests position
430 with duration 0. -/
theorem navLinkClick_scrolls_to_target_witness :
    "#section1" ≠ "" ∧
    jq fullPage "#section1" = Except.ok (some { id := "section1", top := 500 }) ∧
    (navLinkClick "#section1" fullPage).page.animations = [{ scrollTop := 430, duration := 0 }] ∧
    (navLinkClick "#section1" fullPage).defaultPrevented = true ∧
    navLinkClick "" fullPage = { page := fullPage, defaultPrevented := false, error := none } :=
  have h := navLinkClick_scrolls_to_target "#section1" fullPage
  have h1 := h.1 (by decide) { id := "section1", top := 500 } rfl
  ⟨by decide, rfl, by rw [h1]; rfl, by rw [h1], h.2⟩

/-- Three clicks on the sample page leave the submenu shown and the drawer as it
was. -/
theorem serviceToggle_alternates_witness :
    "show" ∉ ["mobile-submenu"] ∧
    submenu (serviceToggleClicks 3 fullPage) = some { classList := ["mobile-submenu", "show"] } ∧
    (serviceToggleClick (serviceToggleClicks 3 fullPage)).defaultPrevented = true ∧
    (serviceToggleClicks 3 fullPage).sideNav = fullPage.sideNav :=
  have h := serviceToggle_alternates 3 fullPage
    { nextElementSibling := some { classList := ["mobile-submenu"] } }
    { classList := ["mobile-submenu"] } rfl rfl (by decide)
  ⟨by decide, by decide, h.2.1, h.2.2.2.1⟩

end CustomJs
